import Mathlib

/-!
Shallow embedding of the `django-ecommerce` repository
(`products/models.py`, `products/views.py`,
`products/management/commands/import_products.py`).

Database tables are lists of rows; each Django operation is translated to a
pure Lean function on that state.  Machine strings are Lean `String`s; the
Python `Decimal` type is modelled by `PyDecimal` (an exact signed mantissa
with a base-10 scale, compared numerically, never reduced), and the float
average cached on a product is modelled by `Rat`.
-/

/-- Model of Python `str.strip()`: drop whitespace from both ends. -/
def pyStrip (s : String) : String :=
  ((s.toList.dropWhile Char.isWhitespace).reverse.dropWhile Char.isWhitespace).reverse.asString

/-- Model of the Python expression `x or d` for an optional string `x`
(`None` and the empty string are falsy). -/
def pyOrStr : Option String → String → String
  | some s, d => if s = "" then d else s
  | none,   d => d

/-- A nonempty, all-decimal-digit character list. -/
def isDigitList (cs : List Char) : Bool :=
  !cs.isEmpty && cs.all Char.isDigit

/-- Decimal digits to a natural number. -/
def digitsToNat (cs : List Char) : Nat :=
  cs.foldl (fun n c => 10 * n + (c.toNat - 48)) 0

/-- Model of Python `int(s)` on decimal strings: surrounding whitespace,
an optional sign, then a nonempty digit run.  (Unicode digits and the
underscore grouping accepted by CPython are not modelled; no claim
depends on them.) -/
def parseIntPy (s : String) : Option Int :=
  match (pyStrip s).toList with
  | '+' :: rest => if isDigitList rest then some (digitsToNat rest : Int) else none
  | '-' :: rest => if isDigitList rest then some (-(digitsToNat rest : Int)) else none
  | rest        => if isDigitList rest then some (digitsToNat rest : Int) else none

/-- Model of a Python `decimal.Decimal` value: a signed mantissa `num` with
base-10 `scale`, denoting `num / 10 ^ scale`.  Like CPython, the
representation is never reduced; equality of values is numeric. -/
structure PyDecimal where
  num : Int
  scale : Nat
  deriving DecidableEq, Repr

/-- Numeric equality of decimals, as used by Python `==` / `!=` on
`Decimal` operands. -/
def PyDecimal.eqNum (a b : PyDecimal) : Bool :=
  a.num * (10 : Int) ^ b.scale == b.num * (10 : Int) ^ a.scale

/-- `Decimal("0.00")`. -/
def zeroDec : PyDecimal := ⟨0, 2⟩

/-- Model of the `Decimal(s)` constructor on plain numeric strings:
an optional sign, then `digits`, `digits.digits`, `digits.` or `.digits`
with at least one digit.  (Exponents and the named special values of the
IBM spec are not modelled; every claim about prices is conditional on the
parse outcome.)  Returns `none` where CPython raises `InvalidOperation`. -/
def parseDecimal (s : String) : Option PyDecimal :=
  let core : List Char → Option (Nat × Nat) := fun cs =>
    let intPart := cs.takeWhile (· ≠ '.')
    match cs.dropWhile (· ≠ '.') with
    | [] => if isDigitList intPart then some (digitsToNat intPart, 0) else none
    | '.' :: frac =>
      if intPart.all Char.isDigit && frac.all Char.isDigit
          && !(intPart.isEmpty && frac.isEmpty) then
        some (digitsToNat (intPart ++ frac), frac.length)
      else none
    | _ => none
  match s.toList with
  | '+' :: rest => (core rest).map fun m => ⟨(m.1 : Int), m.2⟩
  | '-' :: rest => (core rest).map fun m => ⟨-(m.1 : Int), m.2⟩
  | rest        => (core rest).map fun m => ⟨(m.1 : Int), m.2⟩

/-- Model of `django.utils.text.slugify`: lowercase, keep only
alphanumerics, whitespace, hyphens and underscores, collapse whitespace
and hyphen runs to a single hyphen, and strip leading/trailing hyphens
and underscores. -/
def slugCollapse (cs : List Char) : List Char :=
  (cs.foldl (fun acc c =>
    if c.isWhitespace || c = '-' then
      match acc with
      | '-' :: _ => acc
      | _ => '-' :: acc
    else c :: acc) []).reverse

/-- Strip hyphens and underscores from both ends (the final step of
`slugify`). -/
def slugStrip (cs : List Char) : List Char :=
  ((cs.dropWhile fun c => c = '-' || c = '_').reverse.dropWhile
    fun c => c = '-' || c = '_').reverse

/-- `django.utils.text.slugify` (ASCII fragment). -/
def slugify (s : String) : String :=
  let cleaned := (s.toList.map Char.toLower).filter
    fun c => c.isAlphanum || c.isWhitespace || c = '-' || c = '_'
  (slugStrip (slugCollapse cleaned)).asString

/-- One row of the `products_product` table (`Product` model of
`products/models.py`).  `created_at` carries no claim-relevant
information and is omitted; `stock` is kept as an integer so that the
importer can be modelled without an artificial overflow check. -/
structure Product where
  id : Nat
  title : String
  description : String
  price : PyDecimal
  stock : Int
  country_of_origin : String
  province : String
  winery : String
  variety : String
  image_url : String
  ratings : Rat
  slug : String
  deriving DecidableEq, Repr

/-- One CSV row as produced by `csv.DictReader`: `row.get(column)` is
`none` when the column is absent from the file. -/
structure Row where
  country : Option String
  description : Option String
  price : Option String
  province : Option String
  title : Option String
  variety : Option String
  winery : Option String
  image_url : Option String
  image : Option String
  stock : Option String
  deriving DecidableEq, Repr

/-- The `defaults` dictionary built by `Command.handle` for one row:
every normalized field destined for the product, with `stock` present
only when the CSV supplied a parsable value. -/
structure Defaults where
  description : String
  price : PyDecimal
  country_of_origin : String
  province : String
  variety : String
  winery : String
  image_url : String
  stock : Option Int
  deriving DecidableEq, Repr

/-- `(row.get("title") or "").strip()`. -/
def rowTitle (row : Row) : String := pyStrip (pyOrStr row.title "")

/-- `(row.get("winery") or "").strip()`. -/
def rowWinery (row : Row) : String := pyStrip (pyOrStr row.winery "")

/-- `(row.get("price") or "").strip()`. -/
def rowPriceRaw (row : Row) : String := pyStrip (pyOrStr row.price "")

/-- Price parsing of `Command.handle`: empty string means
`Decimal("0.00")` silently; a parse failure falls back to
`Decimal("0.00")` and warns.  Returns the price and the warning flag. -/
def rowPrice (row : Row) : PyDecimal × Bool :=
  let raw := rowPriceRaw row
  if raw = "" then (zeroDec, false)
  else
    match parseDecimal raw with
    | some d => (d, false)
    | none => (zeroDec, true)

/-- `image_url = row.get("image_url") or row.get("image") or ""`, then
`image_url.strip() if image_url else ""`. -/
def rowImageUrl (row : Row) : String :=
  let image_url := pyOrStr row.image_url (pyOrStr row.image "")
  if image_url = "" then "" else pyStrip image_url

/-- Stock parsing of `Command.handle`: only a truthy raw value is parsed;
on failure the field is left out (model default applies) and a warning is
emitted.  Returns the parsed stock and the warning flag. -/
def rowStock (row : Row) : Option Int × Bool :=
  match row.stock with
  | none => (none, false)
  | some s =>
    if s = "" then (none, false)
    else
      match parseIntPy s with
      | some n => (some n, false)
      | none => (none, true)

/-- The full `defaults` dictionary for one row. -/
def rowDefaultsOf (row : Row) : Defaults :=
  { description := pyStrip (pyOrStr row.description "")
    price := (rowPrice row).1
    country_of_origin := pyStrip (pyOrStr row.country "")
    province := pyStrip (pyOrStr row.province "")
    variety := pyStrip (pyOrStr row.variety "")
    winery := rowWinery row
    image_url := rowImageUrl row
    stock := (rowStock row).1 }

/-- Mutable state of one `import_products` run: the `products_product`
table, the next auto-increment key, the four counters and the lines
written to standard output. -/
structure ImportState where
  catalog : List Product
  nextId : Nat
  created : Nat
  updated : Nat
  skipped : Nat
  errors : Nat
  output : List String
  deriving DecidableEq, Repr

/-- Fresh state over an existing catalog, as at the top of
`Command.handle` after the header checks. -/
def initState (catalog : List Product) (nextId : Nat) : ImportState :=
  { catalog, nextId, created := 0, updated := 0, skipped := 0, errors := 0, output := [] }

/-- A per-row status line, `"Row {i}: {msg}"`. -/
def rowMsg (i : Nat) (msg : String) : String :=
  "Row " ++ toString i ++ ": " ++ msg

/-- The warning written when a price fails to parse. -/
def priceWarnMsg (i : Nat) (raw : String) : String :=
  rowMsg i ("invalid price " ++ raw ++ " → set to 0.00")

/-- The warning written when a stock value fails to parse. -/
def stockWarnMsg (i : Nat) (raw : String) : String :=
  rowMsg i ("invalid stock " ++ raw ++ " → using model default")

/-- The final summary line of `Command.handle`. -/
def summaryLine (created updated skipped errors : Nat) : String :=
  "Import complete: created=" ++ toString created ++ " updated=" ++ toString updated
    ++ " skipped=" ++ toString skipped ++ " errors=" ++ toString errors

/-- `Product.objects.filter(title=title, winery=winery).first()`. -/
def firstProduct (catalog : List Product) (title winery : String) : Option Product :=
  catalog.find? fun p => p.title == title && p.winery == winery

/-- The field-by-field update loop of `Command.handle`: each differing
field is overwritten (decimals compared numerically, as Python `!=`
does) and `changed` records whether any field differed.  The `stock`
entry takes part only when present in `defaults`. -/
def applyDefaults (p : Product) (d : Defaults) : Product × Bool :=
  let cDescription := p.description != d.description
  let cPrice := !(PyDecimal.eqNum p.price d.price)
  let cCountry := p.country_of_origin != d.country_of_origin
  let cProvince := p.province != d.province
  let cVariety := p.variety != d.variety
  let cWinery := p.winery != d.winery
  let cImage := p.image_url != d.image_url
  let cStock := match d.stock with
    | some n => p.stock != n
    | none => false
  let q : Product :=
    { p with
      description := if cDescription then d.description else p.description
      price := if cPrice then d.price else p.price
      country_of_origin := if cCountry then d.country_of_origin else p.country_of_origin
      province := if cProvince then d.province else p.province
      variety := if cVariety then d.variety else p.variety
      winery := if cWinery then d.winery else p.winery
      image_url := if cImage then d.image_url else p.image_url
      stock := match d.stock with
        | some n => if p.stock != n then n else p.stock
        | none => p.stock }
  (q, cDescription || cPrice || cCountry || cProvince || cVariety || cWinery || cImage || cStock)

/-- Spec-side predicate: the existing product agrees with every
normalized field of the row (decimals numerically; `stock` only when the
row supplied one).  To be compared against the `changed` flag computed
by `applyDefaults`. -/
def fieldsMatch (p : Product) (d : Defaults) : Bool :=
  (p.description == d.description) && PyDecimal.eqNum p.price d.price
    && (p.country_of_origin == d.country_of_origin) && (p.province == d.province)
    && (p.variety == d.variety) && (p.winery == d.winery)
    && (p.image_url == d.image_url)
    && (match d.stock with
        | some n => p.stock == n
        | none => true)

/-- `Product.objects.create(title=title, **defaults)` followed by
`Product.save`, which fills the blank slug from the title; `stock`
falls back to the model default 200. -/
def createProduct (id : Nat) (title : String) (d : Defaults) : Product :=
  { id
    title
    description := d.description
    price := d.price
    stock := d.stock.getD 200
    country_of_origin := d.country_of_origin
    province := d.province
    winery := d.winery
    variety := d.variety
    image_url := d.image_url
    ratings := 0
    slug := slugify title }

/-- One iteration of the row loop of `Command.handle`.  `fail` is the
environment oracle: `true` means the database write this row attempts
(`Product.objects.create` or `product.save`) raises, in which case the
`except` clause counts an error and the loop moves on.  Rows that reach
no write are unaffected by `fail`. -/
def processRow (updateExisting : Bool) (fail : Bool) (i : Nat)
    (st : ImportState) (row : Row) : ImportState :=
  let title := rowTitle row
  let winery := rowWinery row
  if title == "" || winery == "" then
    { st with skipped := st.skipped + 1
              output := st.output ++ [rowMsg i "missing title or winery → skipped"] }
  else
    let out0 := if (rowPrice row).2 then st.output ++ [priceWarnMsg i (rowPriceRaw row)]
                else st.output
    let out := if (rowStock row).2 then out0 ++ [stockWarnMsg i (row.stock.getD "")]
               else out0
    let d := rowDefaultsOf row
    match firstProduct st.catalog title winery with
    | some p =>
      if updateExisting then
        let pair := applyDefaults p d
        if pair.2 then
          if fail then
            { st with errors := st.errors + 1
                      output := out ++ [rowMsg i "Error importing row"] }
          else
            { st with catalog := st.catalog.map fun q => if q.id = p.id then pair.1 else q
                      updated := st.updated + 1
                      output := out ++ [rowMsg i ("Updated " ++ pair.1.title)] }
        else
          { st with skipped := st.skipped + 1
                    output := out ++ [rowMsg i ("No changes for " ++ p.title ++ " → skipped")] }
      else
        { st with skipped := st.skipped + 1
                  output := out ++ [rowMsg i (p.title ++ " already exists → skipped (use --update to overwrite)")] }
    | none =>
      if fail then
        { st with errors := st.errors + 1
                  output := out ++ [rowMsg i "Error importing row"] }
      else
        let np := createProduct st.nextId title d
        { st with catalog := st.catalog ++ [np]
                  nextId := st.nextId + 1
                  created := st.created + 1
                  output := out ++ [rowMsg i ("Created " ++ np.title)] }

/-- The row loop of `Command.handle`, rows numbered from `i`
(`enumerate(reader, start=1)` in the source). -/
def runRowsFrom (updateExisting : Bool) (fail : Nat → Bool) (i : Nat)
    (st : ImportState) : List Row → ImportState
  | [] => st
  | row :: rest => runRowsFrom updateExisting fail (i + 1)
      (processRow updateExisting (fail i) i st row) rest

/-- The required CSV columns of `import_products`. -/
def requiredColumns : List String :=
  ["country", "description", "price", "province", "title", "variety", "winery"]

/-- A successfully opened CSV file: header and data rows. -/
structure CsvFile where
  fieldnames : List String
  rows : List Row
  deriving DecidableEq, Repr

/-- The required columns absent from the header. -/
def missingColumns (fieldnames : List String) : List String :=
  requiredColumns.filter fun c => !(fieldnames.contains c)

/-- `Command.handle` of `import_products`: `none` for the file means
`open` raised `FileNotFoundError`.  A `CommandError` is the `.error`
case (the interpolated file path of the real message is not modelled);
otherwise the row loop runs and the summary line is appended. -/
def importCommand (file : Option CsvFile) (updateExisting : Bool)
    (fail : Nat → Bool) (catalog : List Product) (nextId : Nat) :
    Except String ImportState :=
  match file with
  | none => .error "CSV file not found"
  | some f =>
    if missingColumns f.fieldnames ≠ [] then
      .error ("CSV is missing required columns: "
        ++ String.intercalate ", " (missingColumns f.fieldnames))
    else
      let st := runRowsFrom updateExisting fail 1 (initState catalog nextId) f.rows
      .ok { st with output := st.output ++ [summaryLine st.created st.updated st.skipped st.errors] }

/-- One row of the rating table (`Rating` model): the `(user, product)`
pair is unique, `stars` is an integer from 1 to 5. -/
structure RatingRow where
  user : Nat
  productId : Nat
  stars : Nat
  deriving DecidableEq, Repr

/-- The database state the models act on. -/
structure DB where
  products : List Product
  ratings : List RatingRow
  deriving DecidableEq, Repr

/-- `Product.objects` lookup of one product by primary key (also the
order-insensitive `first()` on a single-key filter). -/
def lookupById (products : List Product) (id : Nat) : Option Product :=
  products.find? fun p => p.id == id

/-- The star values of all ratings of one product
(`self.user_ratings` of `Product.update_average_rating`). -/
def starsOf (ratings : List RatingRow) (productId : Nat) : List Nat :=
  (ratings.filter fun r => r.productId == productId).map RatingRow.stars

/-- SQL `Avg("stars")`: `none` over an empty set, otherwise the exact
mean as a rational. -/
def avgStars (stars : List Nat) : Option Rat :=
  if stars = [] then none
  else some (((stars.foldl (· + ·) 0 : Nat) : Rat) / (stars.length : Rat))

/-- `Product.update_average_rating`: recompute the aggregate over the
product ratings and persist it on the cached field (0.0 when the
aggregate is `NULL`). -/
def update_average_rating (p : Product) (ratings : List RatingRow) : Product :=
  match avgStars (starsOf ratings p.id) with
  | some a => { p with ratings := a }
  | none => { p with ratings := 0 }

/-- `super().save()` on a `Rating` instance: update the row with the same
`(user, product)` key if one exists, else insert it at the end. -/
def persistRating (r : RatingRow) (ratings : List RatingRow) : List RatingRow :=
  if ratings.any fun q => q.user == r.user && q.productId == r.productId then
    ratings.map fun q => if q.user == r.user && q.productId == r.productId then r else q
  else ratings ++ [r]

/-- `Rating.save`: persist the rating row, then recompute the owning
product average (`self.product.update_average_rating()`). -/
def ratingSave (r : RatingRow) (db : DB) : DB :=
  let ratings := persistRating r db.ratings
  { products := db.products.map fun p =>
      if p.id = r.productId then update_average_rating p ratings else p
    ratings }

/-- Spec-side value: the arithmetic mean of the star values, or 0.0 when
no ratings exist. -/
def meanOrZero (stars : List Nat) : Rat :=
  if stars = [] then 0
  else ((stars.foldl (· + ·) 0 : Nat) : Rat) / (stars.length : Rat)

/-- The relevant parts of an incoming request for `home_view`:
`request.GET.get("page")` and `request.headers.get("HX-Request")`. -/
structure HttpRequest where
  page : Option String
  hxRequest : Option String
  deriving DecidableEq, Repr

/-- What `home_view` renders: the chosen template and the product page
passed to it. -/
structure Rendered where
  template : String
  objectList : List Product
  deriving DecidableEq, Repr

/-- `Product.objects.all().order_by("-id")`: stable sort by descending
primary key. -/
def sortByIdDesc (products : List Product) : List Product :=
  products.insertionSort fun a b => b.id ≤ a.id

/-- `Paginator(products, 20)`. -/
def perPage : Nat := 20

/-- `Paginator.num_pages` with default options (`orphans=0`,
`allow_empty_first_page=True`): `ceil(max(1, count) / 20)`. -/
def numPages (count : Nat) : Nat :=
  (max 1 count + perPage - 1) / perPage

/-- `Paginator.get_page` on an `int` argument: page numbers below 1 or
above `num_pages` fall back to the last page. -/
def getPageNumber (n : Int) (pages : Nat) : Nat :=
  if n < 1 then pages
  else if n > (pages : Int) then pages
  else n.toNat

/-- The object list of the page served by `paginator.get_page(n)`. -/
def pageObjectList (products : List Product) (n : Int) : List Product :=
  let sorted := sortByIdDesc products
  let k := getPageNumber n (numPages sorted.length)
  (sorted.drop ((k - 1) * perPage)).take perPage

/-- `int(request.GET.get("page", 1))`: the default `1` is an `int`
already, a present parameter goes through `int()` and may raise
`ValueError`. -/
def pageParamValue (page : Option String) : Option Int :=
  match page with
  | none => some 1
  | some s => parseIntPy s

/-- `home_view` of `products/views.py`: an uncaught `ValueError` from
`int()` is the `.error` case; otherwise the paginated product list is
rendered with the fragment template exactly when the `HX-Request`
header equals `"true"`. -/
def home_view (products : List Product) (req : HttpRequest) : Except String Rendered :=
  match pageParamValue req.page with
  | none => .error ("invalid literal for int(): " ++ (req.page.getD ""))
  | some n =>
    let objectList := pageObjectList products n
    if req.hxRequest == some "true" then
      .ok { template := "products/partials/products.html", objectList }
    else
      .ok { template := "home.html", objectList }

/-! ## Helper lemmas -/

/-- A row with a blank (trimmed) title or winery takes the skip branch
before anything else happens. -/
theorem processRow_blank (upd fail : Bool) (i : Nat) (st : ImportState) (row : Row)
    (h : rowTitle row = "" ∨ rowWinery row = "") :
    processRow upd fail i st row =
      { st with skipped := st.skipped + 1
                output := st.output ++ [rowMsg i "missing title or winery → skipped"] } := by
  rcases h with h | h <;> simp [processRow, h]

/-! ## C4: blank title or winery -/

/-- C4: a CSV row whose title or winery is blank after trimming is
skipped — the skipped counter is incremented, the errors counter and all
other state (catalog included) are untouched, and only the skip message
is written. -/
theorem blank_row_skipped_not_error (upd fail : Bool) (i : Nat)
    (st : ImportState) (row : Row)
    (h : rowTitle row = "" ∨ rowWinery row = "") :
    (processRow upd fail i st row).skipped = st.skipped + 1 ∧
    (processRow upd fail i st row).errors = st.errors ∧
    (processRow upd fail i st row).created = st.created ∧
    (processRow upd fail i st row).updated = st.updated ∧
    (processRow upd fail i st row).catalog = st.catalog := by
  rw [processRow_blank upd fail i st row h]
  exact ⟨rfl, rfl, rfl, rfl, rfl⟩

/-- A concrete blank-title row. -/
def blankTitleRow : Row :=
  { country := some "US", description := some "d", price := some "9.99",
    province := some "p", title := some "   ", variety := some "v",
    winery := some "Acme", image_url := none, image := none, stock := none }

/-- Witness for C4 at a concrete blank-title row. -/
theorem blank_row_skipped_not_error_witness :
    (rowTitle blankTitleRow = "" ∨ rowWinery blankTitleRow = "") ∧
    ((processRow false false 1 (initState [] 1) blankTitleRow).skipped
        = (initState [] 1).skipped + 1 ∧
      (processRow false false 1 (initState [] 1) blankTitleRow).errors
        = (initState [] 1).errors ∧
      (processRow false false 1 (initState [] 1) blankTitleRow).created
        = (initState [] 1).created ∧
      (processRow false false 1 (initState [] 1) blankTitleRow).updated
        = (initState [] 1).updated ∧
      (processRow false false 1 (initState [] 1) blankTitleRow).catalog
        = (initState [] 1).catalog) :=
  ⟨Or.inl (by decide),
    blank_row_skipped_not_error false false 1 (initState [] 1) blankTitleRow
      (Or.inl (by decide))⟩

/-! ## C7: fatal errors abort the import before any row -/

/-- C7: a missing file or a header lacking a required column aborts the
whole import with a command-level error; in the missing-column case the
outcome does not even depend on the data rows, so no row is processed,
no counter incremented and no product written. -/
theorem import_aborts_on_fatal_error :
    (∀ (upd : Bool) (fail : Nat → Bool) (catalog : List Product) (nextId : Nat),
        importCommand none upd fail catalog nextId = .error "CSV file not found") ∧
    (∀ (hdr : List String) (rows : List Row) (upd : Bool) (fail : Nat → Bool)
        (catalog : List Product) (nextId : Nat),
        missingColumns hdr ≠ [] →
        importCommand (some ⟨hdr, rows⟩) upd fail catalog nextId =
          .error ("CSV is missing required columns: "
            ++ String.intercalate ", " (missingColumns hdr)) ∧
        importCommand (some ⟨hdr, rows⟩) upd fail catalog nextId =
          importCommand (some ⟨hdr, []⟩) upd fail catalog nextId) := by
  refine ⟨fun upd fail catalog nextId => rfl, fun hdr rows upd fail catalog nextId h => ?_⟩
  constructor <;> simp [importCommand, h]

/-- Witness for C7: a header missing every required column. -/
theorem import_aborts_on_fatal_error_witness :
    missingColumns ["price"] ≠ [] ∧
    (importCommand (some ⟨["price"], [blankTitleRow]⟩) false (fun _ => false) [] 1 =
        .error ("CSV is missing required columns: "
          ++ String.intercalate ", " (missingColumns ["price"])) ∧
      importCommand (some ⟨["price"], [blankTitleRow]⟩) false (fun _ => false) [] 1 =
        importCommand (some ⟨["price"], []⟩) false (fun _ => false) [] 1) :=
  ⟨by decide,
    import_aborts_on_fatal_error.2 ["price"] [blankTitleRow] false (fun _ => false) [] 1
      (by decide)⟩

/-! ## C10: malformed page parameter -/

/-- C10: when the page query parameter is present but not parseable as
an integer, `home_view` raises (no page is rendered); the fallback to
page 1 exists only for an absent parameter. -/
theorem home_view_malformed_page_raises (products : List Product)
    (req : HttpRequest) (s : String)
    (h1 : req.page = some s) (h2 : parseIntPy s = none) :
    home_view products req = .error ("invalid literal for int(): " ++ s) := by
  simp [home_view, pageParamValue, h1, h2]

/-- Witness for C10 at the concrete parameter value `"abc"`. -/
theorem home_view_malformed_page_raises_witness :
    ((⟨some "abc", none⟩ : HttpRequest).page = some "abc" ∧ parseIntPy "abc" = none) ∧
    home_view [] ⟨some "abc", none⟩ = .error ("invalid literal for int(): " ++ "abc") :=
  ⟨⟨rfl, by decide⟩,
    home_view_malformed_page_raises [] ⟨some "abc", none⟩ "abc" rfl (by decide)⟩

/-! ## C1: rating save recomputes the cached average -/

/-- Updating the matching products in place commutes with the primary-key
lookup, provided the update preserves the key. -/
theorem find?_map_update (ps : List Product) (i : Nat) (g : Product → Product)
    (hg : ∀ p, (g p).id = p.id) :
    ((ps.map fun q => if q.id = i then g q else q).find? fun p => p.id == i) =
      ((ps.find? fun p => p.id == i).map g) := by
  induction ps with
  | nil => rfl
  | cons p ps ih =>
    by_cases h : p.id = i
    · simp [List.find?, h, hg]
    · have hb : (p.id == i) = false := by simp [h]
      simp [List.find?, h, hb, ih]

/-- `update_average_rating` does not touch the primary key. -/
theorem update_average_rating_id (p : Product) (ratings : List RatingRow) :
    (update_average_rating p ratings).id = p.id := by
  unfold update_average_rating
  split <;> rfl

/-- The cached field written by `update_average_rating` is the mean of
the star values, or zero for an empty rating set. -/
theorem update_average_rating_ratings (p : Product) (rs : List RatingRow) :
    (update_average_rating p rs).ratings = meanOrZero (starsOf rs p.id) := by
  unfold update_average_rating avgStars meanOrZero
  by_cases h : starsOf rs p.id = [] <;> simp [h]

/-- C1: after any `Rating.save` (create or update) for an existing
product, the cached `ratings` field of that product equals the
arithmetic mean of the star values of all its ratings in the resulting
state, or 0.0 if none exist. -/
theorem rating_save_recomputes_average (db : DB) (r : RatingRow)
    (h : (lookupById db.products r.productId).isSome = true) :
    ((lookupById (ratingSave r db).products r.productId).map Product.ratings) =
      some (meanOrZero (starsOf (ratingSave r db).ratings r.productId)) := by
  obtain ⟨p, hp⟩ := Option.isSome_iff_exists.mp h
  have hp' : (db.products.find? fun q => q.id == r.productId) = some p := hp
  have hpid : p.id = r.productId := by simpa using List.find?_some hp'
  show ((db.products.map fun q =>
      if q.id = r.productId then update_average_rating q (persistRating r db.ratings) else q).find?
        fun q => q.id == r.productId).map Product.ratings = _
  rw [find?_map_update db.products r.productId _
      (fun q => update_average_rating_id q (persistRating r db.ratings))]
  rw [hp']
  show some (update_average_rating p (persistRating r db.ratings)).ratings =
    some (meanOrZero (starsOf (persistRating r db.ratings) r.productId))
  rw [update_average_rating_ratings, hpid]

/-- A concrete product for the rating scenario. -/
def demoProduct : Product :=
  { id := 1, title := "Red Blend", description := "", price := ⟨1999, 2⟩,
    stock := 200, country_of_origin := "US", province := "CA", winery := "Acme",
    variety := "Red", image_url := "", ratings := 0, slug := "red-blend" }

/-- A database holding the demo product with no ratings yet. -/
def demoDb : DB := { products := [demoProduct], ratings := [] }

/-- The database after users 1 and 2 rated the product 3 and 4 stars. -/
def demoDb2 : DB := ratingSave ⟨2, 1, 4⟩ (ratingSave ⟨1, 1, 3⟩ demoDb)

/-- Witness for C1: after ratings 3, 4 and 5 for one product the cached
average is exactly 4. -/
theorem rating_save_recomputes_average_witness :
    (lookupById demoDb2.products 1).isSome = true ∧
    ((lookupById (ratingSave ⟨3, 1, 5⟩ demoDb2).products 1).map Product.ratings) = some 4 := by
  refine ⟨by decide,
    Trans.trans (rating_save_recomputes_average demoDb2 ⟨3, 1, 5⟩ (by decide)) ?_⟩
  have hs : starsOf (ratingSave ⟨3, 1, 5⟩ demoDb2).ratings
      (RatingRow.mk 3 1 5).productId = [3, 4, 5] := by decide
  rw [hs]
  simp [meanOrZero]
  norm_num

/-! ## C9: every row increments exactly one counter -/

/-- Each loop iteration increments the four counters by exactly one in
total. -/
theorem processRow_counts (upd fail : Bool) (i : Nat) (st : ImportState) (row : Row) :
    (processRow upd fail i st row).created + (processRow upd fail i st row).updated
      + (processRow upd fail i st row).skipped + (processRow upd fail i st row).errors
      = st.created + st.updated + st.skipped + st.errors + 1 := by
  by_cases hb : (rowTitle row == "" || rowWinery row == "") = true
  · simp [processRow, hb]
    omega
  · cases hf : firstProduct st.catalog (rowTitle row) (rowWinery row) with
    | some p =>
      cases upd with
      | true =>
        by_cases hc : (applyDefaults p (rowDefaultsOf row)).2 = true
        · cases fail <;> simp [processRow, hb, hf, hc] <;> omega
        · simp [processRow, hb, hf, hc]
          omega
      | false =>
        simp [processRow, hb, hf]
        omega
    | none =>
      cases fail <;> simp [processRow, hb, hf] <;> omega

/-- Summed over the loop, the counters grow by the number of rows. -/
theorem runRowsFrom_counts (upd : Bool) (fail : Nat → Bool) (rows : List Row) :
    ∀ (i : Nat) (st : ImportState),
      (runRowsFrom upd fail i st rows).created + (runRowsFrom upd fail i st rows).updated
        + (runRowsFrom upd fail i st rows).skipped + (runRowsFrom upd fail i st rows).errors
        = st.created + st.updated + st.skipped + st.errors + rows.length := by
  induction rows with
  | nil => intro i st; rfl
  | cons row rest ih =>
    intro i st
    simp only [runRowsFrom]
    rw [ih (i + 1) (processRow upd (fail i) i st row)]
    rw [processRow_counts upd (fail i) i st row]
    simp [List.length_cons]
    omega

/-- C9: on any accepted CSV, each data row increments exactly one of the
four counters, so the final counts partition the rows:
created + updated + skipped + errors = number of rows. -/
theorem import_counters_partition (f : CsvFile) (upd : Bool) (fail : Nat → Bool)
    (catalog : List Product) (nextId : Nat) (st : ImportState)
    (h : importCommand (some f) upd fail catalog nextId = .ok st) :
    st.created + st.updated + st.skipped + st.errors = f.rows.length := by
  simp only [importCommand] at h
  split at h
  · exact absurd h (by simp)
  · rw [Except.ok.injEq] at h
    subst h
    simpa [initState] using runRowsFrom_counts upd fail f.rows 1 (initState catalog nextId)

/-- A concrete one-row CSV (the row is blank, so it is skipped). -/
def oneBlankRowCsv : CsvFile := ⟨requiredColumns, [blankTitleRow]⟩

/-- The state `import_products` produces on `oneBlankRowCsv`. -/
def oneBlankRowFinal : ImportState :=
  { catalog := [], nextId := 1, created := 0, updated := 0, skipped := 1, errors := 0,
    output := [rowMsg 1 "missing title or winery → skipped", summaryLine 0 0 1 0] }

/-- Witness for C9 on the concrete one-row CSV. -/
theorem import_counters_partition_witness :
    importCommand (some oneBlankRowCsv) false (fun _ => false) [] 1 = .ok oneBlankRowFinal ∧
    oneBlankRowFinal.created + oneBlankRowFinal.updated + oneBlankRowFinal.skipped
      + oneBlankRowFinal.errors = oneBlankRowCsv.rows.length :=
  ⟨rfl, import_counters_partition oneBlankRowCsv false (fun _ => false) [] 1 oneBlankRowFinal rfl⟩

/-! ## C3: exceptions are caught per row, the run continues and ends
with the summary -/

/-- Whether a row reaches a database write (`Product.objects.create` or
`product.save`) — the operations at which an exception can strike in the
model. -/
def reachesWrite (catalog : List Product) (upd : Bool) (row : Row) : Bool :=
  !(rowTitle row == "") && !(rowWinery row == "") &&
    match firstProduct catalog (rowTitle row) (rowWinery row) with
    | some p => upd && (applyDefaults p (rowDefaultsOf row)).2
    | none => true

/-- C3: an exception during a row only bumps the errors counter of that
row — catalog and the other counters are untouched, so prior commits
survive; the loop is a fold, so the remaining rows are still processed
from that state; and every accepted run ends with the summary line
carrying all four counters. -/
theorem import_row_errors_isolated :
    (∀ (upd : Bool) (i : Nat) (st : ImportState) (row : Row),
        reachesWrite st.catalog upd row = true →
        (processRow upd true i st row).errors = st.errors + 1 ∧
        (processRow upd true i st row).catalog = st.catalog ∧
        (processRow upd true i st row).created = st.created ∧
        (processRow upd true i st row).updated = st.updated ∧
        (processRow upd true i st row).skipped = st.skipped) ∧
    (∀ (upd : Bool) (fail : Nat → Bool) (i : Nat) (st : ImportState) (pre post : List Row),
        runRowsFrom upd fail i st (pre ++ post) =
          runRowsFrom upd fail (i + pre.length) (runRowsFrom upd fail i st pre) post) ∧
    (∀ (file : Option CsvFile) (upd : Bool) (fail : Nat → Bool)
        (catalog : List Product) (nextId : Nat) (st : ImportState),
        importCommand file upd fail catalog nextId = .ok st →
        st.output.getLast? = some (summaryLine st.created st.updated st.skipped st.errors)) := by
  refine ⟨?_, ?_, ?_⟩
  · intro upd i st row h
    simp only [reachesWrite, Bool.and_eq_true, Bool.not_eq_true'] at h
    obtain ⟨⟨ht, hw⟩, hm⟩ := h
    cases hf : firstProduct st.catalog (rowTitle row) (rowWinery row) with
    | some p =>
      rw [hf] at hm
      rw [Bool.and_eq_true] at hm
      obtain ⟨hu, hc⟩ := hm
      subst hu
      refine ⟨?_, ?_, ?_, ?_, ?_⟩ <;> simp [processRow, ht, hw, hf, hc]
    | none =>
      refine ⟨?_, ?_, ?_, ?_, ?_⟩ <;> simp [processRow, ht, hw, hf]
  · intro upd fail i st pre post
    induction pre generalizing i st with
    | nil => simp [runRowsFrom]
    | cons row rest ih =>
      simp only [List.cons_append, runRowsFrom, List.length_cons, List.append_eq]
      rw [ih]
      have harith : i + 1 + rest.length = i + (rest.length + 1) := by omega
      rw [harith]
  · intro file upd fail catalog nextId st h
    cases file with
    | none => exact absurd h (by simp [importCommand])
    | some f =>
      simp only [importCommand] at h
      split at h
      · exact absurd h (by simp)
      · rw [Except.ok.injEq] at h
        subst h
        simp [List.getLast?_concat]

/-- A concrete valid row for the importer scenarios. -/
def validRow : Row :=
  { country := some "US", description := some "Nice red", price := some "19.99",
    province := some "CA", title := some "Red Blend", variety := some "Red",
    winery := some "Acme", image_url := none, image := none, stock := none }

/-- Witness for C3: a database failure at the create of a concrete valid
row is counted as exactly one error and changes nothing else. -/
theorem import_row_errors_isolated_witness :
    reachesWrite (initState [] 1).catalog false validRow = true ∧
    ((processRow false true 1 (initState [] 1) validRow).errors = (initState [] 1).errors + 1 ∧
      (processRow false true 1 (initState [] 1) validRow).catalog = (initState [] 1).catalog ∧
      (processRow false true 1 (initState [] 1) validRow).created = (initState [] 1).created ∧
      (processRow false true 1 (initState [] 1) validRow).updated = (initState [] 1).updated ∧
      (processRow false true 1 (initState [] 1) validRow).skipped = (initState [] 1).skipped) :=
  ⟨by decide, import_row_errors_isolated.1 false 1 (initState [] 1) validRow (by decide)⟩

/-! ## C2: update mode writes only when a field differs -/

/-- The `changed` flag of the update loop is exactly the negation of the
spec-side field agreement predicate. -/
theorem applyDefaults_changed (p : Product) (d : Defaults) :
    (applyDefaults p d).2 = !(fieldsMatch p d) := by
  cases hs : d.stock <;>
    simp [applyDefaults, fieldsMatch, hs, Bool.not_and, bne]

/-- When every compared field agrees, the update loop neither modifies
the product nor reports a change. -/
theorem applyDefaults_of_match (p : Product) (d : Defaults)
    (h : fieldsMatch p d = true) :
    applyDefaults p d = (p, false) := by
  cases hs : d.stock with
  | none =>
    simp only [fieldsMatch, hs, Bool.and_true, Bool.and_eq_true, beq_iff_eq] at h
    obtain ⟨⟨⟨⟨⟨⟨h1, hp⟩, h3⟩, h4⟩, h5⟩, h6⟩, h7⟩ := h
    simp [applyDefaults, hs, h1, hp, h3, h4, h5, h6, h7, bne]
    rw [← h1, ← h3, ← h4, ← h5, ← h6, ← h7]
  | some n =>
    simp only [fieldsMatch, hs, Bool.and_eq_true, beq_iff_eq] at h
    obtain ⟨⟨⟨⟨⟨⟨⟨h1, hp⟩, h3⟩, h4⟩, h5⟩, h6⟩, h7⟩, h8⟩ := h
    simp [applyDefaults, hs, h1, hp, h3, h4, h5, h6, h7, h8, bne]
    rw [← h1, ← h3, ← h4, ← h5, ← h6, ← h7, ← h8]

/-- In update mode, a row whose matched product agrees in every
normalized field is counted as skipped and changes nothing else. -/
theorem processRow_update_match (fail : Bool) (i : Nat) (st : ImportState) (row : Row)
    (h : ∃ p, firstProduct st.catalog (rowTitle row) (rowWinery row) = some p ∧
        fieldsMatch p (rowDefaultsOf row) = true) :
    (processRow true fail i st row).catalog = st.catalog ∧
    (processRow true fail i st row).updated = st.updated ∧
    (processRow true fail i st row).created = st.created ∧
    (processRow true fail i st row).errors = st.errors ∧
    (processRow true fail i st row).skipped = st.skipped + 1 := by
  obtain ⟨p, hp, hm⟩ := h
  by_cases hb : (rowTitle row == "" || rowWinery row == "") = true
  · have hb' : rowTitle row = "" ∨ rowWinery row = "" := by
      simpa [Bool.or_eq_true, beq_iff_eq] using hb
    rw [processRow_blank true fail i st row hb']
    exact ⟨rfl, rfl, rfl, rfl, rfl⟩
  · have hc := applyDefaults_of_match p (rowDefaultsOf row) hm
    refine ⟨?_, ?_, ?_, ?_, ?_⟩ <;> simp [processRow, hb, hp, hc]

/-- C2: with the update flag, a CSV whose rows all agree with the
already-stored products in every normalized field performs zero writes —
every row is counted as skipped and the catalog is unchanged; and a
matched product is written and counted as updated only if at least one
normalized field differs (if all agree, the row neither bumps the
updated counter nor touches the catalog). -/
theorem import_with_update_is_idempotent :
    (∀ (fail : Nat → Bool) (i : Nat) (st : ImportState) (rows : List Row),
        (∀ row ∈ rows, ∃ p,
            firstProduct st.catalog (rowTitle row) (rowWinery row) = some p ∧
            fieldsMatch p (rowDefaultsOf row) = true) →
        (runRowsFrom true fail i st rows).updated = st.updated ∧
        (runRowsFrom true fail i st rows).created = st.created ∧
        (runRowsFrom true fail i st rows).errors = st.errors ∧
        (runRowsFrom true fail i st rows).catalog = st.catalog ∧
        (runRowsFrom true fail i st rows).skipped = st.skipped + rows.length) ∧
    (∀ (fail : Bool) (i : Nat) (st : ImportState) (row : Row) (p : Product),
        firstProduct st.catalog (rowTitle row) (rowWinery row) = some p →
        fieldsMatch p (rowDefaultsOf row) = true →
        (processRow true fail i st row).updated = st.updated ∧
        (processRow true fail i st row).catalog = st.catalog) := by
  constructor
  · intro fail i st rows
    induction rows generalizing i st with
    | nil => intro _; exact ⟨rfl, rfl, rfl, rfl, by simp [runRowsFrom]⟩
    | cons row rest ih =>
      intro h
      obtain ⟨hcat, hupd, hcre, herr, hskip⟩ :=
        processRow_update_match (fail i) i st row (h row (by simp))
      have hrest : ∀ r ∈ rest, ∃ p,
          firstProduct (processRow true (fail i) i st row).catalog
            (rowTitle r) (rowWinery r) = some p ∧
          fieldsMatch p (rowDefaultsOf r) = true := by
        intro r hr
        rw [hcat]
        exact h r (by simp [hr])
      obtain ⟨u, c, e, g, s⟩ := ih (i + 1) (processRow true (fail i) i st row) hrest
      simp only [runRowsFrom, List.length_cons]
      refine ⟨?_, ?_, ?_, ?_, ?_⟩
      · rw [u, hupd]
      · rw [c, hcre]
      · rw [e, herr]
      · rw [g, hcat]
      · rw [s, hskip]
        omega
  · intro fail i st row p hp hm
    obtain ⟨hcat, hupd, _, _, _⟩ := processRow_update_match fail i st row ⟨p, hp, hm⟩
    exact ⟨hupd, hcat⟩

/-- The product `validRow` denotes once imported (primary key 1). -/
def matchedProduct : Product :=
  { id := 1, title := "Red Blend", description := "Nice red", price := ⟨1999, 2⟩,
    stock := 200, country_of_origin := "US", province := "CA", winery := "Acme",
    variety := "Red", image_url := "", ratings := 0, slug := "red-blend" }

/-- Witness for C2: re-running the importer with the update flag over a
catalog already holding exactly the data of the CSV performs zero
updates and skips the row. -/
theorem import_with_update_is_idempotent_witness :
    (∀ row ∈ [validRow], ∃ p,
        firstProduct (initState [matchedProduct] 2).catalog (rowTitle row) (rowWinery row) = some p ∧
        fieldsMatch p (rowDefaultsOf row) = true) ∧
    ((runRowsFrom true (fun _ => false) 1 (initState [matchedProduct] 2) [validRow]).updated
        = (initState [matchedProduct] 2).updated ∧
      (runRowsFrom true (fun _ => false) 1 (initState [matchedProduct] 2) [validRow]).created
        = (initState [matchedProduct] 2).created ∧
      (runRowsFrom true (fun _ => false) 1 (initState [matchedProduct] 2) [validRow]).errors
        = (initState [matchedProduct] 2).errors ∧
      (runRowsFrom true (fun _ => false) 1 (initState [matchedProduct] 2) [validRow]).catalog
        = (initState [matchedProduct] 2).catalog ∧
      (runRowsFrom true (fun _ => false) 1 (initState [matchedProduct] 2) [validRow]).skipped
        = (initState [matchedProduct] 2).skipped + [validRow].length) := by
  have hm : ∀ row ∈ [validRow], ∃ p,
      firstProduct (initState [matchedProduct] 2).catalog (rowTitle row) (rowWinery row) = some p ∧
      fieldsMatch p (rowDefaultsOf row) = true := by
    intro row hr
    rw [List.mem_singleton] at hr
    subst hr
    exact ⟨matchedProduct, rfl, by decide⟩
  exact ⟨hm, import_with_update_is_idempotent.1 (fun _ => false) 1
    (initState [matchedProduct] 2) [validRow] hm⟩

/-! ## C6: two identical rows, no update flag -/

/-- A nonblank row the catalog does not know takes the create branch. -/
theorem processRow_create_fields (upd : Bool) (i : Nat) (st : ImportState) (row : Row)
    (hb : (rowTitle row == "" || rowWinery row == "") ≠ true)
    (hf : firstProduct st.catalog (rowTitle row) (rowWinery row) = none) :
    (processRow upd false i st row).catalog
        = st.catalog ++ [createProduct st.nextId (rowTitle row) (rowDefaultsOf row)] ∧
    (processRow upd false i st row).created = st.created + 1 ∧
    (processRow upd false i st row).updated = st.updated ∧
    (processRow upd false i st row).skipped = st.skipped ∧
    (processRow upd false i st row).errors = st.errors := by
  refine ⟨?_, ?_, ?_, ?_, ?_⟩ <;> simp [processRow, hb, hf]

/-- Without the update flag, a row whose product already exists is
skipped without modification. -/
theorem processRow_exists_skipped_fields (fail : Bool) (i : Nat) (st : ImportState)
    (row : Row) (p : Product)
    (hb : (rowTitle row == "" || rowWinery row == "") ≠ true)
    (hf : firstProduct st.catalog (rowTitle row) (rowWinery row) = some p) :
    (processRow false fail i st row).catalog = st.catalog ∧
    (processRow false fail i st row).created = st.created ∧
    (processRow false fail i st row).updated = st.updated ∧
    (processRow false fail i st row).skipped = st.skipped + 1 ∧
    (processRow false fail i st row).errors = st.errors := by
  refine ⟨?_, ?_, ?_, ?_, ?_⟩ <;> simp [processRow, hb, hf]

/-- A concrete CSV row whose title is blank but whose winery is set. -/
def dupBlankRow : Row :=
  { country := some "US", description := some "d", price := some "9.99",
    province := some "p", title := some "", variety := some "v",
    winery := some "W", image_url := none, image := none, stock := none }

/-- Counterexample to C6 as stated: a CSV of two rows with identical
(title, winery) — here a blank title — imported into an empty catalog
without the update flag yields zero creates and two skips, not one
create and one skip. -/
theorem import_two_identical_rows_cex :
    ((importCommand (some ⟨requiredColumns, [dupBlankRow, dupBlankRow]⟩)
        false (fun _ => false) [] 1).toOption.map
          fun st => (st.created, st.updated, st.skipped, st.errors)) =
      some (0, 0, 2, 0) := by decide

/-- On a header with no missing columns, `Command.handle` runs the row
loop and appends the summary. -/
theorem importCommand_ok (f : CsvFile) (upd : Bool) (fail : Nat → Bool)
    (catalog : List Product) (nextId : Nat)
    (h : missingColumns f.fieldnames = []) :
    importCommand (some f) upd fail catalog nextId =
      .ok { runRowsFrom upd fail 1 (initState catalog nextId) f.rows with
            output := (runRowsFrom upd fail 1 (initState catalog nextId) f.rows).output
              ++ [summaryLine
                    (runRowsFrom upd fail 1 (initState catalog nextId) f.rows).created
                    (runRowsFrom upd fail 1 (initState catalog nextId) f.rows).updated
                    (runRowsFrom upd fail 1 (initState catalog nextId) f.rows).skipped
                    (runRowsFrom upd fail 1 (initState catalog nextId) f.rows).errors] } := by
  simp [importCommand, h]

/-- C6 (amended): importing a CSV of two rows with identical and
nonblank (title, winery) into an empty catalog without the update flag
creates exactly one product and skips the second row unchanged. -/
theorem import_two_identical_rows (row : Row) (nid : Nat)
    (h1 : rowTitle row ≠ "") (h2 : rowWinery row ≠ "") :
    ((importCommand (some ⟨requiredColumns, [row, row]⟩) false (fun _ => false) [] nid).toOption.map
        fun st => (st.created, st.updated, st.skipped, st.errors, st.catalog)) =
      some (1, 0, 1, 0, [createProduct nid (rowTitle row) (rowDefaultsOf row)]) := by
  have hb : (rowTitle row == "" || rowWinery row == "") ≠ true := by simp [h1, h2]
  have hf1 : firstProduct (initState [] nid).catalog (rowTitle row) (rowWinery row) = none := rfl
  obtain ⟨c1, n1, u1, s1, e1⟩ :=
    processRow_create_fields false 1 (initState [] nid) row hb hf1
  have hfind2 : firstProduct (processRow false false 1 (initState [] nid) row).catalog
      (rowTitle row) (rowWinery row)
        = some (createProduct nid (rowTitle row) (rowDefaultsOf row)) := by
    rw [c1]
    simp [firstProduct, List.find?, createProduct, rowDefaultsOf, initState]
  obtain ⟨c2, n2, u2, s2, e2⟩ :=
    processRow_exists_skipped_fields false 2 (processRow false false 1 (initState [] nid) row)
      row (createProduct nid (rowTitle row) (rowDefaultsOf row)) hb hfind2
  have hrun : runRowsFrom false (fun _ => false) 1 (initState [] nid) [row, row]
      = processRow false false 2 (processRow false false 1 (initState [] nid) row) row := rfl
  have k1 : (processRow false false 2 (processRow false false 1 (initState [] nid) row) row).created = 1 := by
    rw [n2, n1]
    rfl
  have k2 : (processRow false false 2 (processRow false false 1 (initState [] nid) row) row).updated = 0 := by
    rw [u2, u1]
    rfl
  have k3 : (processRow false false 2 (processRow false false 1 (initState [] nid) row) row).skipped = 1 := by
    rw [s2, s1]
    rfl
  have k4 : (processRow false false 2 (processRow false false 1 (initState [] nid) row) row).errors = 0 := by
    rw [e2, e1]
    rfl
  have k5 : (processRow false false 2 (processRow false false 1 (initState [] nid) row) row).catalog
      = [createProduct nid (rowTitle row) (rowDefaultsOf row)] := by
    rw [c2, c1]
    rfl
  have hmiss : missingColumns requiredColumns = [] := by decide
  rw [importCommand_ok ⟨requiredColumns, [row, row]⟩ false (fun _ => false) [] nid hmiss]
  simp only [Except.toOption, Option.map, hrun, k1, k2, k3, k4, k5]

/-- Witness for the amended C6 at a concrete valid row. -/
theorem import_two_identical_rows_witness :
    (rowTitle validRow ≠ "" ∧ rowWinery validRow ≠ "") ∧
    ((importCommand (some ⟨requiredColumns, [validRow, validRow]⟩)
        false (fun _ => false) [] 1).toOption.map
          fun st => (st.created, st.updated, st.skipped, st.errors, st.catalog)) =
      some (1, 0, 1, 0, [createProduct 1 (rowTitle validRow) (rowDefaultsOf validRow)]) :=
  ⟨⟨by decide, by decide⟩, import_two_identical_rows validRow 1 (by decide) (by decide)⟩

/-! ## C5: unparsable price -/

/-- A concrete row whose title is blank and whose price does not parse. -/
def badPriceBlankRow : Row :=
  { country := some "US", description := some "d", price := some "abc",
    province := some "p", title := some "   ", variety := some "v",
    winery := some "Acme", image_url := none, image := none, stock := none }

/-- Counterexample to C5 as stated: a row with a non-empty unparsable
price but a blank title is skipped before the price is ever parsed — no
warning is written and the row is counted neither as created nor as
updated. -/
theorem price_unparsable_cex :
    rowPriceRaw badPriceBlankRow ≠ "" ∧
    parseDecimal (rowPriceRaw badPriceBlankRow) = none ∧
    (processRow false false 1 (initState [] 1) badPriceBlankRow).created = 0 ∧
    (processRow false false 1 (initState [] 1) badPriceBlankRow).updated = 0 ∧
    (processRow false false 1 (initState [] 1) badPriceBlankRow).skipped = 1 ∧
    (processRow false false 1 (initState [] 1) badPriceBlankRow).output
      = [rowMsg 1 "missing title or winery → skipped"] := by decide

/-- C5 (amended): on a row with nonblank title and winery whose price
value is non-empty but unparsable, the price carried into the create or
update is exactly `Decimal("0.00")`, the warning is written, and the row
is counted as created, updated or skipped — never as an error — provided
its database write raises no exception. -/
theorem price_unparsable_defaults_zero (upd : Bool) (i : Nat) (st : ImportState) (row : Row)
    (h1 : rowTitle row ≠ "") (h2 : rowWinery row ≠ "")
    (h3 : rowPriceRaw row ≠ "") (h4 : parseDecimal (rowPriceRaw row) = none) :
    (rowDefaultsOf row).price = zeroDec ∧
    priceWarnMsg i (rowPriceRaw row) ∈ (processRow upd false i st row).output ∧
    (processRow upd false i st row).errors = st.errors ∧
    (processRow upd false i st row).created + (processRow upd false i st row).updated
      + (processRow upd false i st row).skipped
      = st.created + st.updated + st.skipped + 1 := by
  have hprice : rowPrice row = (zeroDec, true) := by
    simp [rowPrice, h3, h4]
  have hb : (rowTitle row == "" || rowWinery row == "") ≠ true := by simp [h1, h2]
  refine ⟨by simp [rowDefaultsOf, hprice], ?_, ?_, ?_⟩
  · by_cases hsk : (rowStock row).2 = true <;>
    cases hf : firstProduct st.catalog (rowTitle row) (rowWinery row) with
    | some p =>
      cases upd with
      | true =>
        by_cases hc : (applyDefaults p (rowDefaultsOf row)).2 = true <;>
          simp [processRow, hb, hf, hc, hprice, hsk, List.mem_append]
      | false => simp [processRow, hb, hf, hprice, hsk, List.mem_append]
    | none => simp [processRow, hb, hf, hprice, hsk, List.mem_append]
  · cases hf : firstProduct st.catalog (rowTitle row) (rowWinery row) with
    | some p =>
      cases upd with
      | true =>
        by_cases hc : (applyDefaults p (rowDefaultsOf row)).2 = true <;>
          simp [processRow, hb, hf, hc]
      | false => simp [processRow, hb, hf]
    | none => simp [processRow, hb, hf]
  · cases hf : firstProduct st.catalog (rowTitle row) (rowWinery row) with
    | some p =>
      cases upd with
      | true =>
        by_cases hc : (applyDefaults p (rowDefaultsOf row)).2 = true <;>
          simp [processRow, hb, hf, hc] <;> omega
      | false =>
        simp [processRow, hb, hf]
        omega
    | none =>
      simp [processRow, hb, hf]
      omega

/-- A concrete nonblank row with an unparsable price. -/
def badPriceRow : Row :=
  { country := some "US", description := some "d", price := some "abc",
    province := some "p", title := some "Red Blend", variety := some "v",
    winery := some "Acme", image_url := none, image := none, stock := none }

/-- Witness for the amended C5 at a concrete row. -/
theorem price_unparsable_defaults_zero_witness :
    (rowTitle badPriceRow ≠ "" ∧ rowWinery badPriceRow ≠ "" ∧
      rowPriceRaw badPriceRow ≠ "" ∧ parseDecimal (rowPriceRaw badPriceRow) = none) ∧
    ((rowDefaultsOf badPriceRow).price = zeroDec ∧
      priceWarnMsg 1 (rowPriceRaw badPriceRow)
        ∈ (processRow false false 1 (initState [] 1) badPriceRow).output ∧
      (processRow false false 1 (initState [] 1) badPriceRow).errors = (initState [] 1).errors ∧
      (processRow false false 1 (initState [] 1) badPriceRow).created
          + (processRow false false 1 (initState [] 1) badPriceRow).updated
          + (processRow false false 1 (initState [] 1) badPriceRow).skipped
        = (initState [] 1).created + (initState [] 1).updated + (initState [] 1).skipped + 1) :=
  ⟨⟨by decide, by decide, by decide, by decide⟩,
    price_unparsable_defaults_zero false 1 (initState [] 1) badPriceRow
      (by decide) (by decide) (by decide) (by decide)⟩

/-! ## C8: home view pagination and partial rendering -/

/-- C8: `home_view` renders the products sorted by descending id, pages
of at most 20, the page index coming from the page parameter (1 exactly
when the parameter is absent), and picks the fragment template exactly
when the `HX-Request` header is `"true"`. -/
theorem home_view_pagination (products : List Product) (req : HttpRequest) (n : Int)
    (h : pageParamValue req.page = some n) :
    home_view products req = .ok
      { template := if req.hxRequest == some "true"
          then "products/partials/products.html" else "home.html"
        objectList := pageObjectList products n } ∧
    (req.page = none → n = 1) ∧
    List.Pairwise (fun a b : Product => b.id ≤ a.id) (sortByIdDesc products) ∧
    (sortByIdDesc products).Perm products ∧
    (pageObjectList products n).length ≤ perPage := by
  refine ⟨?_, ?_, ?_, ?_, ?_⟩
  · cases hhx : req.hxRequest == some "true" <;> simp [home_view, h, hhx]
  · intro hnone
    rw [hnone] at h
    simpa [pageParamValue, eq_comm] using h
  · exact @List.sorted_insertionSort Product (fun a b => b.id ≤ a.id) _
      ⟨fun a b => Nat.le_total b.id a.id⟩ ⟨fun _ _ _ h1 h2 => Nat.le_trans h2 h1⟩ products
  · exact List.perm_insertionSort _ _
  · simp [pageObjectList]

/-- Two concrete products for the pagination witness. -/
def pageDemoProducts : List Product := [demoProduct, { demoProduct with id := 2 }]

/-- Witness for C8 at a concrete fragment request for page 2. -/
theorem home_view_pagination_witness :
    pageParamValue (HttpRequest.mk (some "2") (some "true")).page = some 2 ∧
    (home_view pageDemoProducts ⟨some "2", some "true"⟩ = .ok
        { template := if (HttpRequest.mk (some "2") (some "true")).hxRequest == some "true"
            then "products/partials/products.html" else "home.html"
          objectList := pageObjectList pageDemoProducts 2 } ∧
      ((HttpRequest.mk (some "2") (some "true")).page = none → (2 : Int) = 1) ∧
      List.Pairwise (fun a b : Product => b.id ≤ a.id) (sortByIdDesc pageDemoProducts) ∧
      (sortByIdDesc pageDemoProducts).Perm pageDemoProducts ∧
      (pageObjectList pageDemoProducts 2).length ≤ perPage) :=
  ⟨by decide, home_view_pagination pageDemoProducts ⟨some "2", some "true"⟩ 2 (by decide)⟩
